import Mathlib

/-!
Formal model of the Home Assistant storage helper
(homeassistant/helpers/storage.py).

The payload type is an opaque type parameter. Disk writes are modelled
by an explicit environment that records every write attempt together
with its outcome; the outcome of each attempt (success, or one of the
two error kinds that the write handler catches) is supplied as an
oracle argument, since it is decided by the external serializer and
filesystem.
-/

namespace Storage

variable {α : Type} {β : Type}

/-- Outcome of one attempt to run Store.write_data through the
executor: success, or one of the two error kinds that
Store.handle_write_data catches (json.SerializationError and
json.WriteError). -/
inductive WriteOutcome where
  | ok
  | serializationError
  | writeError
deriving DecidableEq, Repr

/-- Raw on-disk record: the dictionary built by Store.async_save, whose
keys are version, key and data. A field that is none models a
dictionary that lacks that key, as can happen for records read back
from storage. -/
structure RawRecord (α : Type) where
  version : Option Int
  key : Option String
  data : Option α
deriving DecidableEq, Repr

/-- In-memory state of one Store instance: the configured version and
key, the pending buffer self.data, the delay-timer handle
self.unsub_delay_listener (modelled as the armed delay) and the stop
listener handle self.unsub_stop_listener (modelled as a flag). -/
structure StoreState (α : Type) where
  version : Int
  key : String
  data : Option (RawRecord α)
  delayListener : Option Nat
  stopListener : Bool
deriving DecidableEq, Repr

/-- External write effects: each entry records the value passed to
Store.write_data together with the outcome of that attempt. -/
structure Env (α : Type) where
  attempts : List (Option (RawRecord α) × WriteOutcome)
deriving DecidableEq, Repr

/-- Records that actually reached disk: the successful write attempts,
in order. -/
def Env.diskWrites (env : Env α) : List (Option (RawRecord α)) :=
  (env.attempts.filter (fun a => decide (a.2 = WriteOutcome.ok))).map Prod.fst

/-- Error-log entries produced by the two except clauses of
Store.handle_write_data: the outcomes of the failed attempts. -/
def Env.errorLog (env : Env α) : List WriteOutcome :=
  (env.attempts.filter (fun a => decide (a.2 ≠ WriteOutcome.ok))).map Prod.snd

/-- Model of Store.async_cleanup_delay_listener: cancel the delay timer
and drop its handle. -/
def cleanupDelayListener (s : StoreState α) : StoreState α :=
  { s with delayListener := none }

/-- Model of Store.async_cleanup_stop_listener: unsubscribe the stop
listener and drop its handle. -/
def cleanupStopListener (s : StoreState α) : StoreState α :=
  { s with stopListener := false }

/-- Model of Store.async_ensure_stop_listener: register the stop
listener when none is registered yet (idempotent). -/
def ensureStopListener (s : StoreState α) : StoreState α :=
  { s with stopListener := true }

/-- Model of Store.handle_write_data: the pending buffer self.data is
read and cleared first, then write_data is attempted through the
executor. A SerializationError or WriteError is caught and logged, so
the call returns normally (Except.ok) for every outcome; the third
component is the result the awaiting caller observes. -/
def handleWriteData (s : StoreState α) (env : Env α) (o : WriteOutcome) :
    StoreState α × Env α × Except WriteOutcome Unit :=
  let d := s.data
  let s1 : StoreState α := { s with data := none }
  let env1 : Env α := { attempts := env.attempts ++ [(d, o)] }
  match o with
  | WriteOutcome.ok => (s1, env1, Except.ok ())
  | WriteOutcome.serializationError => (s1, env1, Except.ok ())
  | WriteOutcome.writeError => (s1, env1, Except.ok ())

/-- Record built at the top of Store.async_save from the configured
version and key and the payload being saved. -/
def saveRecord (s : StoreState α) (payload : α) : RawRecord α :=
  { version := some s.version, key := some s.key, data := some payload }

/-- First statement of Store.async_save: buffer the new record in
self.data, replacing any previously buffered record. -/
def saveBuffer (s : StoreState α) (payload : α) : StoreState α :=
  { s with data := some (saveRecord s payload) }

/-- Model of Store.async_save: buffer the payload and cancel any delay
listener; with no delay, also cancel the stop listener and write
immediately (awaiting the write attempt); with a delay, arm a new
delay listener and ensure the stop listener is registered. -/
def asyncSave (s : StoreState α) (env : Env α) (payload : α)
    (delay : Option Nat) (o : WriteOutcome) :
    StoreState α × Env α × Except WriteOutcome Unit :=
  let s1 := cleanupDelayListener (saveBuffer s payload)
  match delay with
  | none => handleWriteData (cleanupStopListener s1) env o
  | some d =>
      (ensureStopListener { s1 with delayListener := some d }, env, Except.ok ())

/-- Model of Store.async_callback_delayed_write. It runs only while the
timer is armed, because cancelling the handle prevents the callback
from firing; it clears the timer handle, cancels the stop listener and
performs the write. -/
def delayedWriteCallback (s : StoreState α) (env : Env α) (o : WriteOutcome) :
    StoreState α × Env α :=
  match s.delayListener with
  | none => (s, env)
  | some _ =>
      let r := handleWriteData (cleanupStopListener { s with delayListener := none }) env o
      (r.1, r.2.1)

/-- Model of Store.async_callback_stop_write. It runs only while the
stop listener is registered; it clears the listener handle, cancels the
delay timer and performs the write. -/
def stopWriteCallback (s : StoreState α) (env : Env α) (o : WriteOutcome) :
    StoreState α × Env α :=
  if s.stopListener then
    let r := handleWriteData (cleanupDelayListener { s with stopListener := false }) env o
    (r.1, r.2.1)
  else (s, env)

/-- Externally observable events acting on one Store instance. -/
inductive Event (α : Type) where
  | saveNow (payload : α) (o : WriteOutcome)
  | saveDelayed (payload : α) (delay : Nat)
  | timerFire (o : WriteOutcome)
  | stop (o : WriteOutcome)

/-- Step function of the write-coalescing state machine. -/
def step (s : StoreState α) (env : Env α) : Event α → StoreState α × Env α
  | Event.saveNow p o =>
      let r := asyncSave s env p none o
      (r.1, r.2.1)
  | Event.saveDelayed p d =>
      let r := asyncSave s env p (some d) WriteOutcome.ok
      (r.1, r.2.1)
  | Event.timerFire o => delayedWriteCallback s env o
  | Event.stop o => stopWriteCallback s env o

/-- Run of a sequence of events from a given state and environment. -/
def runEvents (s : StoreState α) (env : Env α) :
    List (Event α) → StoreState α × Env α
  | [] => (s, env)
  | e :: es =>
      let r := step s env e
      runEvents r.1 r.2 es

/-- Errors that Store.async_load can raise: a KeyError from a
dictionary lookup on the stored record, or the NotImplementedError
raised by the base migration function. -/
inductive LoadErr where
  | keyError (k : String)
  | migrationNotImplemented
deriving DecidableEq, Repr

/-- Result of Store.async_load as seen by the caller: the default
empty payload when nothing is stored, or a payload. -/
inductive LoadResult (α : Type) where
  | empty
  | payload (a : α)
deriving DecidableEq, Repr

/-- Dictionary key lookup data[k]: raises KeyError when the key is
absent. -/
def getKey (v : Option β) (k : String) : Except LoadErr β :=
  match v with
  | none => Except.error (LoadErr.keyError k)
  | some x => Except.ok x

/-- Shared tail of Store.async_load once a record is at hand: look up
data[version]; when it equals the configured version, return
data[data]; otherwise call the migration function on data[version] and
data[data] and return its result. -/
def loadFrom (s : StoreState α) (migrate : Int → α → Except LoadErr α)
    (rec : RawRecord α) : Except LoadErr (LoadResult α) :=
  match getKey rec.version "version" with
  | Except.error e => Except.error e
  | Except.ok v =>
      if v = s.version then
        match getKey rec.data "data" with
        | Except.error e => Except.error e
        | Except.ok d => Except.ok (LoadResult.payload d)
      else
        match getKey rec.data "data" with
        | Except.error e => Except.error e
        | Except.ok d =>
            match migrate v d with
            | Except.error e => Except.error e
            | Except.ok r => Except.ok (LoadResult.payload r)

/-- Model of Store.async_load. Returns the post-call store state (the
source never assigns self.data in async_load, so the state is
unchanged), whether storage was read, and the result. The buffered
record is used without reading storage when present; otherwise the
record read from storage is used, a missing file yielding the empty
default. The migration function is a parameter, standing for the
method a subclass overrides. -/
def asyncLoad (s : StoreState α) (migrate : Int → α → Except LoadErr α)
    (diskRead : Option (RawRecord α)) :
    StoreState α × Bool × Except LoadErr (LoadResult α) :=
  match s.data with
  | some rec => (s, false, loadFrom s migrate rec)
  | none =>
      match diskRead with
      | none => (s, true, Except.ok LoadResult.empty)
      | some rec => (s, true, loadFrom s migrate rec)

/-- Model of Store.async_migrate_func of the base class: it raises
NotImplementedError unconditionally. -/
def baseMigrateFunc : Int → α → Except LoadErr α :=
  fun _ _ => Except.error LoadErr.migrationNotImplemented

/-- Observable preconditions of async_migrator: whether the legacy file
exists, and what json.load_json returns for it when it does. -/
structure LegacyEnv (α : Type) where
  fileExists : Bool
  parsed : Option α
deriving DecidableEq, Repr

/-- Side effects performed by async_migrator, in order: a save through
the store (recording the delay argument it was given) and the removal
of the legacy file. -/
inductive MigEffect (α : Type) where
  | storeSave (payload : α) (delay : Option Nat)
  | removeFile
deriving DecidableEq, Repr

/-- Optional transformation step of async_migrator: apply
old_conf_migrate_func when one was supplied. -/
def applyTransform (t : Option (α → α)) (x : α) : α :=
  match t with
  | none => x
  | some f => f x

/-- Model of async_migrator: load the old config (none when the file
does not exist or parses to null); when it is none return none with no
effects; otherwise apply the optional transform, save the result
through the store with no delay, remove the legacy file, and return
the result. The effect list preserves the order of operations. -/
def asyncMigrator (env : LegacyEnv α) (t : Option (α → α)) :
    Option α × List (MigEffect α) :=
  let config : Option α := if env.fileExists then env.parsed else none
  match config with
  | none => (none, [])
  | some c =>
      let c2 := applyTransform t c
      (some c2, [MigEffect.storeSave c2 none, MigEffect.removeFile])

/-- Idle shape of a store: empty buffer, no timer armed, no stop
listener registered, with the version and key of the given store. -/
def idleState (s : StoreState α) : StoreState α :=
  { s with data := none, delayListener := none, stopListener := false }

/-- Pending shape of a store after a delayed save of payload p with
delay d: the record of p buffered, the timer armed for d, the stop
listener registered. -/
def pendingState (s : StoreState α) (p : α) (d : Nat) : StoreState α :=
  { s with data := some (saveRecord s p), delayListener := some d, stopListener := true }

/-- Concrete store instance used by concrete theorems: version 1,
empty buffer, nothing armed. -/
def store0 : StoreState Nat :=
  { version := 1, key := "test", data := none,
    delayListener := none, stopListener := false }

/-- Concrete empty write environment. -/
def env0 : Env Nat := { attempts := [] }

/-- Concrete store instance configured at version 2, as in the spec
scenario where a version-1 record must be migrated. -/
def store2 : StoreState Nat :=
  { version := 2, key := "settings", data := none,
    delayListener := none, stopListener := false }

/-- Concrete migration function for the version-2 store: succeeds,
producing the old payload plus one. -/
def migrate2 : Int → Nat → Except LoadErr Nat :=
  fun _ d => Except.ok (d + 1)

/-- Running a concatenation of event lists runs the first list and then
the second from the resulting state. -/
theorem runEvents_append (xs ys : List (Event α)) (s : StoreState α)
    (env : Env α) :
    runEvents s env (xs ++ ys)
      = runEvents (runEvents s env xs).1 (runEvents s env xs).2 ys := by
  induction xs generalizing s env with
  | nil => rfl
  | cons e t ih => exact ih (step s env e).1 (step s env e).2

/-- Running a nonempty sequence of delayed saves buffers exactly the
record of the final save, arms exactly the final delay, registers the
stop listener, and performs no write attempt. -/
theorem runDelayedSaves (pd : α × Nat) (l : List (α × Nat))
    (s : StoreState α) (env : Env α) :
    runEvents s env ((l ++ [pd]).map (fun q => Event.saveDelayed q.1 q.2))
      = (pendingState s pd.1 pd.2, env) := by
  induction l generalizing s env with
  | nil => rfl
  | cons q t ih => exact ih (pendingState s q.1 q.2) env

/-- C1 (amended): an immediate save performs exactly one write attempt
before returning (the call completes only after the attempt), but a
SerializationError or WriteError outcome is caught and logged at the
write boundary, so the save call always returns normally; the failure
is not propagated to the caller. -/
theorem immediate_save_after_write_attempt (s : StoreState α) (env : Env α)
    (p : α) (o : WriteOutcome) :
    asyncSave s env p none o
      = (idleState s,
         { attempts := env.attempts ++ [(some (saveRecord s p), o)] },
         Except.ok ()) := by
  cases o <;> rfl

/-- C1 counterexample: at a concrete store and payload, an immediate
save whose underlying write fails with WriteError still returns
normally (Except.ok), while the failure is only recorded in the error
log; the error does not propagate to the save caller, contradicting
the claim that the failure is surfaced synchronously rather than
swallowed. -/
theorem immediate_save_error_swallowed_cx :
    (asyncSave store0 env0 7 none WriteOutcome.writeError).2.2 = Except.ok ()
    ∧ Env.errorLog (asyncSave store0 env0 7 none WriteOutcome.writeError).2.1
        = [WriteOutcome.writeError] :=
  ⟨rfl, rfl⟩

/-- C2 (amended): loading with an empty buffer a stored record whose
version differs from the configured version calls the migration
function with exactly the stored version and stored data and returns
its result to the caller; the store state, in particular its in-memory
buffer, is left unchanged. -/
theorem load_version_mismatch_migrates (s : StoreState α)
    (migrate : Int → α → Except LoadErr α) (v : Int) (k : Option String)
    (d : α) (hbuf : s.data = none) (hv : v ≠ s.version) :
    asyncLoad s migrate (some { version := some v, key := k, data := some d })
      = (s, true,
         match migrate v d with
         | Except.error e => Except.error e
         | Except.ok r => Except.ok (LoadResult.payload r)) := by
  simp [asyncLoad, loadFrom, getKey, hbuf, hv]

/-- C2 witness: the mismatch hypothesis holds at version 1 against the
version-2 store, and the migrated payload 6 is returned. -/
theorem load_version_mismatch_migrates_witness :
    (1 : Int) ≠ store2.version
    ∧ asyncLoad store2 migrate2
        (some { version := some 1, key := some "settings", data := some 5 })
        = (store2, true, Except.ok (LoadResult.payload 6)) :=
  ⟨by decide,
   load_version_mismatch_migrates store2 migrate2 1 (some "settings") 5
     rfl (by decide)⟩

/-- C2 counterexample: at a concrete version-2 store with an empty
buffer, loading a version-1 record returns the migrated payload 6, yet
the post-call store state still has an empty in-memory buffer; the
returned payload does not become the store in-memory state, as the
claim asserts. -/
theorem load_migration_leaves_buffer_empty_cx :
    asyncLoad store2 migrate2
        (some { version := some 1, key := some "settings", data := some 5 })
      = (store2, true, Except.ok (LoadResult.payload 6))
    ∧ (asyncLoad store2 migrate2
        (some { version := some 1, key := some "settings", data := some 5 })).1.data
      = none :=
  ⟨rfl, rfl⟩

/-- C3: after a save buffers a payload and before any write consumes
the buffer, a load returns exactly that payload without reading
storage. The first conjunct covers a delayed save (whose post-save
state keeps the buffer); the second covers an immediate save at the
point the write handler is about to be awaited, the only point of an
immediate save at which the buffer is not yet consumed. -/
theorem save_then_load_buffered (s : StoreState α) (env : Env α)
    (migrate : Int → α → Except LoadErr α) (diskRead : Option (RawRecord α))
    (p : α) (d : Nat) :
    asyncLoad (step s env (Event.saveDelayed p d)).1 migrate diskRead
      = ((step s env (Event.saveDelayed p d)).1, false,
         Except.ok (LoadResult.payload p))
    ∧ asyncLoad (cleanupStopListener (cleanupDelayListener (saveBuffer s p)))
        migrate diskRead
      = (cleanupStopListener (cleanupDelayListener (saveBuffer s p)), false,
         Except.ok (LoadResult.payload p)) := by
  constructor <;>
    simp [asyncLoad, loadFrom, getKey, step, asyncSave, saveBuffer, saveRecord,
      cleanupDelayListener, cleanupStopListener, ensureStopListener]

/-- C4: after any nonempty sequence of delayed saves issued before any
timer fires, only the record of the final save is buffered (each save
replaced the buffer and cancelled the previous timer, and no write
attempt has happened yet), and when the timer finally fires exactly
one write attempt occurs, carrying the final record; the intermediate
payloads never reach disk. -/
theorem delayed_saves_coalesce (pd : α × Nat) (l : List (α × Nat))
    (s : StoreState α) (env : Env α) (o : WriteOutcome) :
    runEvents s env ((l ++ [pd]).map (fun q => Event.saveDelayed q.1 q.2))
      = (pendingState s pd.1 pd.2, env)
    ∧ runEvents s env
        (((l ++ [pd]).map (fun q => Event.saveDelayed q.1 q.2)) ++ [Event.timerFire o])
      = (idleState s, { attempts := env.attempts ++ [(some (saveRecord s pd.1), o)] }) := by
  refine ⟨runDelayedSaves pd l s env, ?_⟩
  rw [runEvents_append, runDelayedSaves]
  cases o <;> rfl

/-- C5: a delayed save followed by a shutdown event before the delay
elapses performs exactly one write attempt, carrying the saved record,
and leaves the store idle with the debounce timer cancelled; a timer
firing afterwards is a no-op, so no second write of the payload can be
triggered. -/
theorem save_then_stop_writes_once (s : StoreState α) (env : Env α)
    (p : α) (d : Nat) (o o2 : WriteOutcome) :
    runEvents s env [Event.saveDelayed p d, Event.stop o]
      = (idleState s, { attempts := env.attempts ++ [(some (saveRecord s p), o)] })
    ∧ step (idleState s) { attempts := env.attempts ++ [(some (saveRecord s p), o)] }
        (Event.timerFire o2)
      = (idleState s, { attempts := env.attempts ++ [(some (saveRecord s p), o)] }) := by
  cases o <;> exact ⟨rfl, rfl⟩

/-- C6: every write attempt consumes the pending buffer at its start:
whatever the outcome of the write, including the two failure kinds,
the post-state buffer is none and the attempt records exactly the
pre-state buffer; the consumed payload is never read again, so only a
new save can re-attempt its persistence. -/
theorem write_consumes_pending (s : StoreState α) (env : Env α)
    (o : WriteOutcome) :
    handleWriteData s env o
      = ({ s with data := none },
         { attempts := env.attempts ++ [(s.data, o)] }, Except.ok ()) := by
  cases o <;> rfl

/-- C7: the base migration function fails with the
NotImplemented-kind error on every input, and a load that hits a
version mismatch with no concrete migration strategy supplied fails
with that error. -/
theorem base_migrate_not_implemented (s : StoreState α) (v : Int)
    (k : Option String) (d : α) (hbuf : s.data = none)
    (hv : v ≠ s.version) :
    baseMigrateFunc v d
      = (Except.error LoadErr.migrationNotImplemented : Except LoadErr α)
    ∧ (asyncLoad s baseMigrateFunc
        (some { version := some v, key := k, data := some d })).2.2
      = Except.error LoadErr.migrationNotImplemented := by
  refine ⟨rfl, ?_⟩
  simp [asyncLoad, loadFrom, getKey, baseMigrateFunc, hbuf, hv]

/-- C7 witness: version 1 against the version-2 store with an empty
buffer fails with the NotImplemented-kind error. -/
theorem base_migrate_not_implemented_witness :
    (1 : Int) ≠ store2.version
    ∧ (asyncLoad store2 baseMigrateFunc
        (some { version := some 1, key := some "settings", data := some 5 })).2.2
      = Except.error LoadErr.migrationNotImplemented :=
  ⟨by decide,
   (base_migrate_not_implemented store2 1 (some "settings") 5 rfl (by decide)).2⟩

/-- C8: when the legacy file exists and parses to a payload, the
migrator applies the optional transform, saves the result through the
store with no delay, then removes the legacy file, and returns the
payload; the save effect precedes the removal in the effect order. -/
theorem migrator_saves_then_deletes (env : LegacyEnv α) (t : Option (α → α))
    (v : α) (hex : env.fileExists = true) (hp : env.parsed = some v) :
    asyncMigrator env t
      = (some (applyTransform t v),
         [MigEffect.storeSave (applyTransform t v) none, MigEffect.removeFile]) := by
  simp [asyncMigrator, hex, hp]

/-- C8 witness: an existing legacy file parsing to 3 with no transform
is saved verbatim with no delay and then removed. -/
theorem migrator_saves_then_deletes_witness :
    (⟨true, some 3⟩ : LegacyEnv Nat).fileExists = true
    ∧ asyncMigrator (⟨true, some 3⟩ : LegacyEnv Nat) none
      = (some 3, [MigEffect.storeSave 3 none, MigEffect.removeFile]) :=
  ⟨rfl, migrator_saves_then_deletes ⟨true, some 3⟩ none 3 rfl rfl⟩

/-- C9: when the legacy file exists but parses to null, the migrator
returns none with no effects: nothing is saved through the store and
the legacy file is not removed, and the outcome equals that of an
absent legacy file. -/
theorem migrator_null_content_noop (env : LegacyEnv α) (t : Option (α → α))
    (hex : env.fileExists = true) (hp : env.parsed = none) :
    asyncMigrator env t = (none, [])
    ∧ asyncMigrator env t = asyncMigrator { env with fileExists := false } t := by
  constructor <;> simp [asyncMigrator, hex, hp]

/-- C9 witness: an existing legacy file parsing to null yields none
with no save and no removal. -/
theorem migrator_null_content_noop_witness :
    (⟨true, none⟩ : LegacyEnv Nat).parsed = none
    ∧ asyncMigrator (⟨true, none⟩ : LegacyEnv Nat) none = (none, []) :=
  ⟨rfl, (migrator_null_content_noop ⟨true, none⟩ none rfl rfl).1⟩

/-- C10: loading with an empty buffer a stored record that lacks the
version key fails with KeyError version, and one whose version matches
but which lacks the data key fails with KeyError data; in neither case
is the default empty payload returned or an error of the spec taxonomy
raised. -/
theorem load_missing_key_fails (s : StoreState α)
    (migrate : Int → α → Except LoadErr α) (rec : RawRecord α)
    (hbuf : s.data = none) :
    (rec.version = none →
      (asyncLoad s migrate (some rec)).2.2
        = Except.error (LoadErr.keyError "version"))
    ∧ (rec.version = some s.version → rec.data = none →
      (asyncLoad s migrate (some rec)).2.2
        = Except.error (LoadErr.keyError "data")) := by
  constructor
  · intro h
    simp [asyncLoad, loadFrom, getKey, hbuf, h]
  · intro h1 h2
    simp [asyncLoad, loadFrom, getKey, hbuf, h1, h2]

/-- C10 witness: a record with no version key fails with KeyError
version, and a record at the matching version 1 with no data key fails
with KeyError data, on the concrete version-1 store. -/
theorem load_missing_key_fails_witness :
    store0.data = none
    ∧ (asyncLoad store0 baseMigrateFunc
        (some { version := none, key := some "k", data := some 5 })).2.2
      = Except.error (LoadErr.keyError "version")
    ∧ (asyncLoad store0 baseMigrateFunc
        (some { version := some 1, key := some "k", data := none })).2.2
      = Except.error (LoadErr.keyError "data") :=
  ⟨rfl,
   (load_missing_key_fails store0 baseMigrateFunc
     { version := none, key := some "k", data := some 5 } rfl).1 rfl,
   (load_missing_key_fails store0 baseMigrateFunc
     { version := some 1, key := some "k", data := none } rfl).2 rfl rfl⟩

end Storage
